import Mathlib

/-!
Verification of the weather-fusion pipeline against its specification.

The Python sources under `src/weatherfusion/` are embedded shallowly:
floats become rationals (`ℚ`), `None`-able values become `Option`,
dataclasses become structures, and dict/Counter idioms are translated at
their documented semantics.  Each embedded definition cites the source
file and lines it translates.
-/

/- ## Generic helpers (Python list/str/dict idioms) -/

/-- Insertion of a natural number into a sorted list (helper for `sorted(...)`). -/
def insert_sorted (x : Nat) : List Nat → List Nat
  | [] => [x]
  | y :: ys => if x ≤ y then x :: y :: ys else y :: insert_sorted x ys

/-- Python `sorted` on a list of ints (ascending). -/
def sort_nats (l : List Nat) : List Nat := l.foldr insert_sorted []

/-- Code-point lexicographic `≤` on char lists, as Python compares strings. -/
def chars_le : List Char → List Char → Bool
  | [], _ => true
  | _ :: _, [] => false
  | a :: as, b :: bs => if a = b then chars_le as bs else decide (a < b)

/-- Python string `≤` (code-point lexicographic). -/
def str_le (a b : String) : Bool := chars_le a.toList b.toList

/-- Insertion into a sorted string list. -/
def insert_sorted_str (x : String) : List String → List String
  | [] => [x]
  | y :: ys => if str_le x y then x :: y :: ys else y :: insert_sorted_str x ys

/-- Python `sorted` on a list of strings. -/
def sort_strs (l : List String) : List String := l.foldr insert_sorted_str []

/-- First-occurrence deduplication with an explicit `seen` accumulator:
the semantics of Python `dict.fromkeys(...)` key order and of membership
testing against a `seen` set while preserving first occurrences. -/
def dedup_first_aux {α : Type} [DecidableEq α] (seen : List α) : List α → List α
  | [] => []
  | x :: xs => if x ∈ seen then dedup_first_aux seen xs else x :: dedup_first_aux (x :: seen) xs

/-- Python `list(dict.fromkeys(l))`: drop duplicates, keep first occurrences. -/
def dedup_first {α : Type} [DecidableEq α] (l : List α) : List α := dedup_first_aux [] l

/-- Python `sep.join(l)`. -/
def join_sep (sep : String) : List String → String
  | [] => ""
  | [x] => x
  | x :: y :: xs => x ++ sep ++ join_sep sep (y :: xs)

/-- Exact prefix test on char lists (pattern, text). -/
def str_starts : List Char → List Char → Bool
  | [], _ => true
  | _ :: _, [] => false
  | p :: ps, c :: cs => p = c && str_starts ps cs

/-- Substring occurrence test on char lists (token, text). -/
def list_has_sub (tok : List Char) : List Char → Bool
  | [] => tok.isEmpty
  | c :: cs => str_starts tok (c :: cs) || list_has_sub tok cs

/-- Python `tok in s` for strings. -/
def str_contains_sub (s tok : String) : Bool := list_has_sub tok.toList s.toList

/-- Python `str.lower()`.  The embedded texts are ASCII, where
`Char.toLower` agrees with Python's case folding. -/
def lower_str (s : String) : String := String.mk (s.toList.map Char.toLower)

/- ## Rounding and means (`statistics.mean`, `round(x, 1)`) -/

/-- Round-half-to-even on rationals, the semantics of Python `round`
applied at integer precision (the model treats float values as exact
rationals). -/
def round_half_even (q : ℚ) : ℤ :=
  let f := ⌊q⌋
  let r := q - (f : ℚ)
  if r < 1/2 then f
  else if 1/2 < r then f + 1
  else if f % 2 = 0 then f else f + 1

/-- Python `round(x, 1)`: one decimal place, half to even. -/
def round1 (q : ℚ) : ℚ := (round_half_even (10 * q) : ℚ) / 10

/-- `_mean` (src/weatherfusion/processing/ensemble.py:35-39): arithmetic
mean of the non-null entries rounded to 1 dp, null when none survive. -/
def mean_opt (values : List (Option ℚ)) : Option ℚ :=
  let filtered := values.filterMap id
  if filtered.isEmpty then none else some (round1 (filtered.sum / (filtered.length : ℚ)))

/-- Python `max` over a nonempty list of rationals. -/
def max_list : List ℚ → Option ℚ
  | [] => none
  | x :: xs => some (xs.foldl max x)

/- ## EHS classifier (src/weatherfusion/processing/ehs.py) -/

/-- Constant attached to every ensemble row (ehs.py:7). -/
def LIGHTNING_NOTE : String :=
  "Cease outdoor work when thunder is heard; resume 30 min after last lightning."

/-- The guidance dictionaries of ehs.py carry these five fixed keys. -/
structure HeatGuidance where
  continuous_heavy_work_min : String
  hydration_cups_per_min : String
  work_rest_min : String
  supervisor_assessments_per_hr : String
  radio_checkins : String
deriving DecidableEq

/-- `HeatBand` dataclass (ehs.py:10-14). -/
structure HeatBand where
  name : String
  threshold_f : ℚ
  guidance : HeatGuidance
deriving DecidableEq

/-- Guidance row of the Extreme Danger band (ehs.py:21-27). -/
def GUIDANCE_EXTREME_DANGER : HeatGuidance :=
  { continuous_heavy_work_min := "0"
    hydration_cups_per_min := "≥1/10"
    work_rest_min := "10/20/10"
    supervisor_assessments_per_hr := "4"
    radio_checkins := "q15m" }

/-- Guidance row of the Danger band (ehs.py:32-38). -/
def GUIDANCE_DANGER : HeatGuidance :=
  { continuous_heavy_work_min := "10"
    hydration_cups_per_min := "1/10–15"
    work_rest_min := "20/30/10"
    supervisor_assessments_per_hr := "2"
    radio_checkins := "q30m" }

/-- Guidance row of the Extreme Caution band (ehs.py:43-49). -/
def GUIDANCE_EXTREME_CAUTION : HeatGuidance :=
  { continuous_heavy_work_min := "15"
    hydration_cups_per_min := "1/15–20"
    work_rest_min := "30/40/10"
    supervisor_assessments_per_hr := "1"
    radio_checkins := "start+q1h" }

/-- Guidance row of the Caution band (ehs.py:54-60). -/
def GUIDANCE_CAUTION : HeatGuidance :=
  { continuous_heavy_work_min := "30"
    hydration_cups_per_min := "1/20"
    work_rest_min := "Normal"
    supervisor_assessments_per_hr := "0 (periodic)"
    radio_checkins := "start+q2h" }

/-- `HEAT_BANDS` (ehs.py:17-62), listed in descending threshold order. -/
def HEAT_BANDS : List HeatBand :=
  [ { name := "Extreme Danger", threshold_f := 125, guidance := GUIDANCE_EXTREME_DANGER }
  , { name := "Danger", threshold_f := 100, guidance := GUIDANCE_DANGER }
  , { name := "Extreme Caution", threshold_f := 90, guidance := GUIDANCE_EXTREME_CAUTION }
  , { name := "Caution", threshold_f := 80, guidance := GUIDANCE_CAUTION } ]

/-- `DEFAULT_HEAT_GUIDANCE` (ehs.py:64-70). -/
def DEFAULT_HEAT_GUIDANCE : HeatGuidance :=
  { continuous_heavy_work_min := "Normal"
    hydration_cups_per_min := "Baseline"
    work_rest_min := "Normal"
    supervisor_assessments_per_hr := "0"
    radio_checkins := "start" }

/-- `classify_heat` (ehs.py:73-79): first band whose threshold the value
meets, scanning `HEAT_BANDS` in order; null input or no hit gives the
default guidance. -/
def classify_heat (high_f : Option ℚ) : Option String × HeatGuidance :=
  match high_f with
  | none => (none, DEFAULT_HEAT_GUIDANCE)
  | some h =>
    match HEAT_BANDS.find? (fun band => decide (h ≥ band.threshold_f)) with
    | some band => (some band.name, band.guidance)
    | none => (none, DEFAULT_HEAT_GUIDANCE)

/-- `FREEZE_GUIDANCE` dict (ehs.py:82-87), as a lookup on the badge key. -/
def FREEZE_GUIDANCE (badge : String) : String :=
  if badge = "Frost" then
    "Cover exposed sensors; monitor slick surfaces; plan extra footing checks."
  else if badge = "Freeze" then
    "Limit time on elevated surfaces; stage warm shelters; confirm cold-weather PPE/buddy checks."
  else if badge = "Hard Freeze" then
    "Pause non-essential outdoor handling; enforce short outdoor rotations; keep warming shelter within reach."
  else ""

/-- `classify_freeze` (ehs.py:90-106). -/
def classify_freeze (low_f : Option ℚ) (breezy : Bool) : Option String × Option String :=
  match low_f with
  | none => (none, none)
  | some l =>
    let badge : Option String :=
      if l ≤ 28 then some "Hard Freeze"
      else if l ≤ 32 then some "Freeze"
      else if l ≤ 36 then some "Frost"
      else none
    match badge with
    | none => (none, none)
    | some b =>
      let guidance := FREEZE_GUIDANCE b
      let guidance :=
        if breezy && decide (l ≤ 32) then guidance ++ " Wind-chill risk: add face/hand protection."
        else guidance
      (some b, some guidance)

/- ## Data model (src/weatherfusion/models.py) -/

/-- `SourceDailyRecord` dataclass (models.py:8-23).  Dates are modeled as
ordinals (`Nat`); `float` fields as `ℚ`. -/
structure SourceDailyRecord where
  site_name : String
  date : Nat
  label : String
  source : String
  high_f : Option ℚ := none
  low_f : Option ℚ := none
  pop_pct : Option ℚ := none
  precip_type : Option String := none
  precip_notes : String := ""
  wind_phrase : Option String := none
  notes : String := ""
  qpf_inches : Option ℚ := none
  snow_inches : Option ℚ := none
  ice_inches : Option ℚ := none
deriving DecidableEq

/-- `DailyEnsemble` dataclass (models.py:26-47). -/
structure DailyEnsemble where
  site_name : String
  date : Nat
  label : String
  high_f : Option ℚ
  low_f : Option ℚ
  pop_pct : Option ℚ
  precip_type : Option String
  precip_notes : String
  heat_category : Option String
  heat_guidance : HeatGuidance
  freeze_risk_badge : Option String := none
  freeze_guidance : Option String := none
  qpf_inches : Option ℚ := none
  snow_inches : Option ℚ := none
  ice_inches : Option ℚ := none
  precip_consensus : Option String := none
  sources : List String := []
  sources_count : Nat := 0
  low_confidence : Bool := false
  lightning_note : Option String := none
deriving DecidableEq

/- ## Ensemble reducer (src/weatherfusion/processing/ensemble.py) -/

/-- `TEMP_LIMITS` (ensemble.py:10-13). -/
def TEMP_LIMITS (key : String) : ℚ × ℚ :=
  if key = "high" then (-40, 130) else (-60, 95)

/-- `PRECIP_PRIORITY` (ensemble.py:14-23; the same list appears in
ingest/dwml.py:14-23 and ingest/rss.py:62-71). -/
def PRECIP_PRIORITY : List String :=
  ["Freezing Rain", "Ice Pellets", "Snow", "Sleet", "Rain", "Showers", "Drizzle", "Thunderstorms"]

/-- `_sanitize` (ensemble.py:26-32): null out values outside the limits. -/
def sanitize (value : Option ℚ) (key : String) : Option ℚ :=
  match value with
  | none => none
  | some v =>
    if (TEMP_LIMITS key).1 ≤ v ∧ v ≤ (TEMP_LIMITS key).2 then some v else none

/-- `Counter(l).most_common(1)[0][0]` for a nonempty `l`: `Counter` keys
are in first-insertion order and `most_common` sorts stably by descending
count, so the head is the first element whose count is maximal. -/
def most_common1 (l : List String) : Option String :=
  l.find? (fun x => l.all fun y => decide (l.count y ≤ l.count x))

/-- `_dominant_precip` (ensemble.py:42-50): drop falsy entries, return the
first `PRECIP_PRIORITY` label present, else the most frequent entry. -/
def dominant_precip (types : List (Option String)) : Option String :=
  let filtered := (types.filterMap id).filter (fun t => t != "")
  if filtered = [] then none
  else
    match PRECIP_PRIORITY.find? (fun lab => filtered.contains lab) with
    | some lab => some lab
    | none => most_common1 filtered

/-- The §4.9 precipitation priority rule as the spec words it: over the
non-null `precip_type` values, the highest-priority label present in the
fixed list, else the most frequent value with ties broken by first
occurrence, null when there are no values. -/
def dominant_precip_spec (types : List (Option String)) : Option String :=
  let vals := types.filterMap id
  if vals = [] then none
  else
    match PRECIP_PRIORITY.find? (fun lab => vals.contains lab) with
    | some lab => some lab
    | none => vals.find? (fun x => vals.all fun y => decide (vals.count y ≤ vals.count x))

/-- Breeze detection for one record (ensemble.py:74-80): a truthy
`wind_phrase` or `notes` containing one of the wind tokens, lowercased. -/
def has_wind_token (s : String) : Bool :=
  ["breezy", "wind", "gust"].any (fun tok => str_contains_sub (lower_str s) tok)

/-- One disjunct of the `breezy` any-expression (ensemble.py:75-78). -/
def record_windy (r : SourceDailyRecord) : Bool :=
  (match r.wind_phrase with
   | some w => w != "" && has_wind_token w
   | none => false)
  || (r.notes != "" && has_wind_token r.notes)

/-- The low-temperature poisoning step (ensemble.py:64-65): when both
aggregates are present and the low exceeds the high, the low is dropped. -/
def day_low (high low0 : Option ℚ) : Option ℚ :=
  match high, low0 with
  | some h, some l => if h < l then none else some l
  | _, l => l

/-- The `DailyEnsemble` constructed for one emitted day
(ensemble.py:85-104).  `fmt` abstracts `day.strftime("%a %b %d")`, which
has no counterpart on ordinal dates. -/
def make_row (site_name : String) (fmt : Nat → String) (day : Nat)
    (bucket : List SourceDailyRecord) (first : SourceDailyRecord)
    (high low : Option ℚ) : DailyEnsemble :=
  { site_name := site_name
    date := day
    label := if first.label != "" then first.label else fmt day
    high_f := high
    low_f := low
    pop_pct := (max_list (bucket.filterMap (fun r => r.pop_pct))).map round1
    precip_type := dominant_precip (bucket.map (fun r => r.precip_type))
    precip_notes := join_sep " | " (dedup_first ((bucket.map (fun r => r.precip_notes)).filter (fun s => s != "")))
    heat_category := (classify_heat high).1
    heat_guidance := (classify_heat high).2
    freeze_risk_badge := (classify_freeze low (bucket.any record_windy)).1
    freeze_guidance := (classify_freeze low (bucket.any record_windy)).2
    qpf_inches := none
    snow_inches := none
    ice_inches := none
    precip_consensus := none
    sources := sort_strs (dedup_first (bucket.map (fun r => r.source)))
    sources_count := (sort_strs (dedup_first (bucket.map (fun r => r.source)))).length
    low_confidence := decide ((sort_strs (dedup_first (bucket.map (fun r => r.source)))).length < 2)
    lightning_note := some LIGHTNING_NOTE }

/-- The per-day body of the loop in `build_site_ensembles`
(ensemble.py:58-104).  `grouped[day]` is the sublist of records carrying
that date, in input order; it is nonempty for every grouped day, so the
`[]` branch is unreachable and modeled as `none`. -/
def process_day (site_name : String) (fmt : Nat → String)
    (records : List SourceDailyRecord) (day : Nat) : Option DailyEnsemble :=
  match records.filter (fun r => r.date == day) with
  | [] => none
  | first :: rest =>
    let bucket := first :: rest
    let high := mean_opt (bucket.map fun r => sanitize r.high_f "high")
    let low := day_low high (mean_opt (bucket.map fun r => sanitize r.low_f "low"))
    if high = none ∧ low = none then none
    else some (make_row site_name fmt day bucket first high low)

/-- The distinct dates of the input in ascending order
(`sorted(grouped.keys())`, ensemble.py:54-58). -/
def group_days (records : List SourceDailyRecord) : List Nat :=
  sort_nats (dedup_first (records.map (fun r => r.date)))

/-- `build_site_ensembles` (ensemble.py:53-107).  The loop breaks after
an append once the output length reaches `days`, which truncates the
emitted rows to `days` entries — except that with `days = 0` the check
fires only after the first append, so one row still comes out: hence
`take (max days 1)`. -/
def build_site_ensembles (site_name : String) (fmt : Nat → String)
    (records : List SourceDailyRecord) (days : Nat) : List DailyEnsemble :=
  ((group_days records).filterMap (process_day site_name fmt records)).take (max days 1)

/- ## Pipeline driver dispatch (src/weatherfusion/pipeline.py) -/

/-- The four ingestor objects constructed by `run_pipeline`
(pipeline.py:58-61).  They are distinct Python objects, so dispatch-list
deduplication by `in`/`set` membership is deduplication by identity. -/
inductive PyIngestor where
  | nbm
  | grid
  | ndfd
  | rss
deriving DecidableEq

/-- The `primary_ingest` setting (config.py:47): `"PUBLIC_FILES"` or `"RSS"`. -/
inductive PrimaryIngest where
  | public_files
  | rss
deriving DecidableEq

/-- `_ingestor_order` (pipeline.py:27-49): `base_public = [nbm, ndfd, grid]`;
`PUBLIC_FILES` takes it and appends `rss` when `rss_fallback`; otherwise
`rss` goes first followed by `base_public`; then first-occurrence
deduplication. -/
def ingestor_order (primary : PrimaryIngest) (rss_fallback : Bool) : List PyIngestor :=
  let base_public := [PyIngestor.nbm, PyIngestor.ndfd, PyIngestor.grid]
  let order :=
    match primary with
    | PrimaryIngest.public_files => base_public ++ (if rss_fallback then [PyIngestor.rss] else [])
    | PrimaryIngest.rss => PyIngestor.rss :: base_public
  dedup_first order

/-- `source_name` class attributes (grib.py:64, gridpoint.py:99, ndfd.py:14,
rss.py:240). -/
def source_name : PyIngestor → String
  | PyIngestor.nbm => "nbm_grib"
  | PyIngestor.grid => "nws_gridpoint"
  | PyIngestor.ndfd => "nws_ndfd"
  | PyIngestor.rss => "nws_rss"

/-- Required positional parameters (beyond `self`, no defaults) of each
ingestor's `fetch` method: `NBMIngestor.fetch(self, site)` (grib.py:224),
`GridpointIngestor.fetch(self, site)` (gridpoint.py:177),
`NdfdIngestor.fetch(self, site)` (ndfd.py:26), and
`RSSIngestor.fetch(self, site, days, tzinfo)` (rss.py:277). -/
def fetch_required_params : PyIngestor → Nat
  | PyIngestor.nbm => 1
  | PyIngestor.grid => 1
  | PyIngestor.ndfd => 1
  | PyIngestor.rss => 3

/-- A Python call with `n` positional arguments binds a method whose
required parameter count is exactly `n` (none of the four `fetch`
methods has defaults, `*args`, or keyword-only parameters); otherwise it
raises `TypeError`. -/
def call_arity_ok (ing : PyIngestor) (nargs : Nat) : Bool :=
  nargs == fetch_required_params ing

/-- `run_pipeline` invokes `ingestor.fetch(site)` with one positional
argument (pipeline.py:76). -/
def driver_fetch_nargs : Nat := 1

/- ## DWML parser precipitation summary (src/weatherfusion/ingest/dwml.py) -/

/-- `_summarize_precip` (dwml.py:54-65): dedup the truthy phrases in
first-occurrence order, emit the first priority label present, else the
first phrase (the `for ... else` branch takes `seen[0]`); notes are the
comma-join of the deduped phrases. -/
def summarize_precip (types : List String) : Option String × String :=
  let seen := dedup_first (types.filter (fun t => t != ""))
  match seen with
  | [] => (none, "")
  | s0 :: _ =>
    (some (match PRECIP_PRIORITY.find? (fun p => seen.contains p) with
           | some p => p
           | none => s0),
     join_sep ", " seen)

/-- The per-day `precip_type` that `parse_dwml` derives (dwml.py:201-204):
the record's field starts null and is assigned exactly when
`_summarize_precip` returns a truthy label, so it equals the first
component of `_summarize_precip` on the day's collected phrases. -/
def dwml_day_precip (phrases : List String) : Option String :=
  (summarize_precip phrases).1

/- ## RSS parser extraction (src/weatherfusion/ingest/rss.py) -/

/-- `\s` on the ASCII texts at issue (Python's `\s` also covers unicode
spaces, none of which occur in the claims' inputs). -/
def is_ws (c : Char) : Bool := c = ' ' || c = '\t' || c = '\n' || c = '\r' || c = '\x0b' || c = '\x0c'

/-- Consume leading whitespace (`\s*`). -/
def drop_ws : List Char → List Char
  | [] => []
  | c :: cs => if is_ws c then drop_ws cs else c :: cs

/-- Case-insensitive character comparison.  The pattern's letters are
ASCII, where `Char.toLower` matches Python's `re.IGNORECASE` folding. -/
def ci_eq (a b : Char) : Bool := a.toLower = b.toLower

/-- Match a literal word case-insensitively, returning the rest of the text. -/
def match_word_ci : List Char → List Char → Option (List Char)
  | [], s => some s
  | _ :: _, [] => none
  | p :: ps, c :: cs => if ci_eq p c then match_word_ci ps cs else none

/-- Maximal run of ASCII digits (`\d+` greedy). -/
def take_digits : List Char → List Char × List Char
  | [] => ([], [])
  | c :: cs =>
    if c.isDigit then
      let (ds, rest) := take_digits cs
      (c :: ds, rest)
    else ([], c :: cs)

/-- Numeric value of a digit run. -/
def digits_to_nat (ds : List Char) : Nat :=
  ds.foldl (fun acc d => 10 * acc + (d.toNat - 48)) 0

/-- Which temperature the first capture group named. -/
inductive TempKind where
  | high
  | low
deriving DecidableEq

/-- One attempted match, at the head of the text, of the pattern compiled
at rss.py:196.  The source line's bytes decode to
`(High|Low)\s*:?\s*(-?\d+)\s*Â°?F`: a mojibake `Â` (U+00C2) is a required
literal, followed by an optional `°` (U+00B0), then `F`. -/
def match_temp_at (s : List Char) : Option (TempKind × Int × List Char) :=
  let kw : Option (TempKind × List Char) :=
    match match_word_ci "high".toList s with
    | some rest => some (TempKind.high, rest)
    | none =>
      match match_word_ci "low".toList s with
      | some rest => some (TempKind.low, rest)
      | none => none
  match kw with
  | none => none
  | some (kind, r1) =>
    let r2 := drop_ws r1
    let r3 := match r2 with
      | ':' :: r => r
      | r => r
    let r4 := drop_ws r3
    let (neg, r5) := match r4 with
      | '-' :: r => (true, r)
      | r => (false, r)
    match take_digits r5 with
    | ([], _) => none
    | (ds, r6) =>
      let value : Int := if neg then -(digits_to_nat ds : Int) else (digits_to_nat ds : Int)
      let r7 := drop_ws r6
      match r7 with
      | [] => none
      | c :: r8 =>
        if c = 'Â' then
          let r9 := match r8 with
            | '°' :: r => r
            | r => r
          match r9 with
          | [] => none
          | f :: r10 => if ci_eq f 'F' then some (kind, value, r10) else none
        else none

/-- `finditer` over the text: scan left to right, restart after each
match.  The fuel equals the text length; every step consumes at least one
character, so it never runs out. -/
def find_temp_matches_fuel : Nat → List Char → List (TempKind × Int)
  | 0, _ => []
  | _, [] => []
  | Nat.succ n, c :: cs =>
    match match_temp_at (c :: cs) with
    | some (k, v, after) => (k, v) :: find_temp_matches_fuel n after
    | none => find_temp_matches_fuel n cs

/-- All matches of the temperature pattern, in text order (rss.py:209). -/
def find_temp_matches (s : List Char) : List (TempKind × Int) :=
  find_temp_matches_fuel s.length s

/-- `re.search(r"(\d+)%", text)` (rss.py:216): the leftmost digit run
immediately followed by `%`, as a number. -/
def find_pop_match : List Char → Option Nat
  | [] => none
  | c :: cs =>
    if c.isDigit then
      match take_digits (c :: cs) with
      | (ds, '%' :: _) => some (digits_to_nat ds)
      | _ => find_pop_match cs
    else find_pop_match cs

/-- The per-entry extraction of rss.py:209-219 on a fresh day record:
each temperature match assigns `high_f` or `low_f` by its first group
(later matches overwrite), and a found percentage sets
`pop_pct = max(record.pop_pct or 0, pop)` where the record starts null. -/
def rss_entry_extract (text : String) : Option ℚ × Option ℚ × Option ℚ :=
  let chars := text.toList
  let temps := (find_temp_matches chars).foldl
    (fun (acc : Option ℚ × Option ℚ) m =>
      match m.1 with
      | TempKind.high => (some (m.2 : ℚ), acc.2)
      | TempKind.low => (acc.1, some (m.2 : ℚ)))
    (none, none)
  let pop : Option ℚ :=
    match find_pop_match chars with
    | some p => some (max (0 : ℚ) (p : ℚ))
    | none => none
  (temps.1, temps.2, pop)

/-- Modelled from the spec: the extraction §4.5 describes, with the
pattern `(High|Low)\s*:?\s*(-?\d+)\s*°?F` (degree sign optional, no
mojibake byte) — this matcher differs from `match_temp_at` only in the
tail after the digits. -/
def match_temp_at_spec (s : List Char) : Option (TempKind × Int × List Char) :=
  let kw : Option (TempKind × List Char) :=
    match match_word_ci "high".toList s with
    | some rest => some (TempKind.high, rest)
    | none =>
      match match_word_ci "low".toList s with
      | some rest => some (TempKind.low, rest)
      | none => none
  match kw with
  | none => none
  | some (kind, r1) =>
    let r2 := drop_ws r1
    let r3 := match r2 with
      | ':' :: r => r
      | r => r
    let r4 := drop_ws r3
    let (neg, r5) := match r4 with
      | '-' :: r => (true, r)
      | r => (false, r)
    match take_digits r5 with
    | ([], _) => none
    | (ds, r6) =>
      let value : Int := if neg then -(digits_to_nat ds : Int) else (digits_to_nat ds : Int)
      let r7 := drop_ws r6
      let r9 := match r7 with
        | '°' :: r => r
        | r => r
      match r9 with
      | [] => none
      | f :: r10 => if ci_eq f 'F' then some (kind, value, r10) else none

/-- Modelled from the spec: all matches of the spec's pattern, in text order. -/
def find_temp_matches_spec_fuel : Nat → List Char → List (TempKind × Int)
  | 0, _ => []
  | _, [] => []
  | Nat.succ n, c :: cs =>
    match match_temp_at_spec (c :: cs) with
    | some (k, v, after) => (k, v) :: find_temp_matches_spec_fuel n after
    | none => find_temp_matches_spec_fuel n cs

/-- Modelled from the spec: every `(\d+)%` match in text order
(`finditer` semantics: scanning resumes after each match; the fuel is
the text length and every step consumes at least one character). -/
def find_all_pops_fuel : Nat → List Char → List Nat
  | 0, _ => []
  | _, [] => []
  | Nat.succ n, c :: cs =>
    if c.isDigit then
      match take_digits (c :: cs) with
      | (ds, '%' :: rest) => digits_to_nat ds :: find_all_pops_fuel n rest
      | _ => find_all_pops_fuel n cs
    else find_all_pops_fuel n cs

/-- Modelled from the spec: every `(\d+)%` match in text order. -/
def find_all_pops (s : List Char) : List Nat := find_all_pops_fuel s.length s

/-- Modelled from the spec (§4.5): extract high/low with the degree sign
optional, and take the maximum over all percentage matches as `pop_pct`. -/
def rss_entry_extract_spec (text : String) : Option ℚ × Option ℚ × Option ℚ :=
  let chars := text.toList
  let temps := (find_temp_matches_spec_fuel chars.length chars).foldl
    (fun (acc : Option ℚ × Option ℚ) m =>
      match m.1 with
      | TempKind.high => (some (m.2 : ℚ), acc.2)
      | TempKind.low => (acc.1, some (m.2 : ℚ)))
    (none, none)
  let pop : Option ℚ := (max_list ((find_all_pops chars).map (fun n => (n : ℚ))))
  (temps.1, temps.2, pop)

/- ## Observable properties used in the claims -/

/-- The temperature discipline: whenever both temperatures are present,
the low does not exceed the high. -/
def low_le_high : Option ℚ → Option ℚ → Bool
  | some l, some h => decide (l ≤ h)
  | _, _ => true

/-- The PoP invariant: a probability of precipitation is null or lies
within [0, 100]. -/
def pop_in_range : Option ℚ → Bool
  | none => true
  | some p => decide (0 ≤ p) && decide (p ≤ 100)

/-- The non-null `precip_type` values of a given day's records, in input
order. -/
def day_precip_values (records : List SourceDailyRecord) (day : Nat) : List String :=
  ((records.filter (fun r => r.date == day)).map (fun r => r.precip_type)).filterMap id

/- ## Concrete scenario inputs (spec §10) and their emitted rows -/

/-- Scenario S5's single poisoned-low record: high 70, low 80. -/
def s5_record : SourceDailyRecord :=
  { site_name := "Home", date := 0, label := "Wed May 01", source := "nbm_grib",
    high_f := some 70, low_f := some 80 }

/-- The row the reducer emits for scenario S5: the high kept, the low
dropped. -/
def s5_row : DailyEnsemble :=
  { site_name := "Home", date := 0, label := "Wed May 01", high_f := some 70, low_f := none,
    pop_pct := none, precip_type := none, precip_notes := "", heat_category := none,
    heat_guidance := DEFAULT_HEAT_GUIDANCE, sources := ["nbm_grib"], sources_count := 1,
    low_confidence := true, lightning_note := some LIGHTNING_NOTE }

/-- Scenario S3's two records for one day (Rain vs Snow). -/
def s3_records : List SourceDailyRecord :=
  [ { site_name := "Home", date := 0, label := "Wed May 01", source := "nbm_grib",
      high_f := some 82, low_f := some 60, pop_pct := some 40, precip_type := some "Rain" }
  , { site_name := "Home", date := 0, label := "Wed May 01", source := "nws_rss",
      high_f := some 84, low_f := some 59, pop_pct := some 60, precip_type := some "Snow",
      wind_phrase := some "Breezy north winds", notes := "Breezy north winds" } ]

/-- The row the reducer emits for scenario S3. -/
def s3_row : DailyEnsemble :=
  { site_name := "Home", date := 0, label := "Wed May 01", high_f := some 83,
    low_f := some (119/2), pop_pct := some 60, precip_type := some "Snow", precip_notes := "",
    heat_category := some "Caution", heat_guidance := GUIDANCE_CAUTION,
    sources := ["nbm_grib", "nws_rss"], sources_count := 2, low_confidence := false,
    lightning_note := some LIGHTNING_NOTE }

/-- A record carrying an out-of-range PoP of 150. -/
def c4_record : SourceDailyRecord :=
  { site_name := "Home", date := 0, label := "d0", source := "nws_rss",
    high_f := some 70, pop_pct := some 150 }

/-- The row the reducer emits for `c4_record`: the out-of-range PoP
passes through unclamped. -/
def c4_row : DailyEnsemble :=
  { site_name := "Home", date := 0, label := "d0", high_f := some 70, low_f := none,
    pop_pct := some 150, precip_type := none, precip_notes := "", heat_category := none,
    heat_guidance := DEFAULT_HEAT_GUIDANCE, sources := ["nws_rss"], sources_count := 1,
    low_confidence := true, lightning_note := some LIGHTNING_NOTE }

/-- A record carrying non-null precipitation amounts. -/
def c10_record : SourceDailyRecord :=
  { site_name := "Home", date := 0, label := "d0", source := "nws_ndfd",
    high_f := some 70, qpf_inches := some 1, snow_inches := some 2, ice_inches := some 3 }

/-- The row the reducer emits for `c10_record`: the amounts are not
forwarded. -/
def c10_row : DailyEnsemble :=
  { site_name := "Home", date := 0, label := "d0", high_f := some 70, low_f := none,
    pop_pct := none, precip_type := none, precip_notes := "", heat_category := none,
    heat_guidance := DEFAULT_HEAT_GUIDANCE, sources := ["nws_ndfd"], sources_count := 1,
    low_confidence := true, lightning_note := some LIGHTNING_NOTE }

/- ## Theorems -/

/-- The sanity limits looked up at the key `"high"`. -/
lemma TEMP_LIMITS_high : TEMP_LIMITS "high" = (-40, 130) := rfl

/-- The sanity limits looked up at the key `"low"`. -/
lemma TEMP_LIMITS_low : TEMP_LIMITS "low" = (-60, 95) := rfl

set_option maxHeartbeats 2000000 in
/-- Full evaluation of the reducer on scenario S5's single record. -/
lemma s5_eval : build_site_ensembles "Home" (fun _ => "") [s5_record] 10 = [s5_row] := by
  norm_num [build_site_ensembles, group_days, sort_nats, insert_sorted, dedup_first, dedup_first_aux,
    process_day, make_row, mean_opt, sanitize, TEMP_LIMITS_high, TEMP_LIMITS_low, day_low,
    round1, round_half_even, Int.fract,
    max_list, dominant_precip, most_common1, join_sep, record_windy, has_wind_token, lower_str,
    str_contains_sub, list_has_sub, str_starts, classify_heat, HEAT_BANDS, classify_freeze,
    sort_strs, insert_sorted_str, str_le, chars_le, s5_record, s5_row,
    GUIDANCE_EXTREME_DANGER, GUIDANCE_DANGER, GUIDANCE_EXTREME_CAUTION, GUIDANCE_CAUTION,
    DEFAULT_HEAT_GUIDANCE, List.filter, List.find?, List.foldl, List.foldr, List.filterMap,
    List.sum, List.isEmpty, reduceCtorEq, String.reduceEq]
  simp

set_option maxHeartbeats 4000000 in
/-- Full evaluation of the reducer on scenario S3's two records. -/
lemma s3_eval : build_site_ensembles "Home" (fun _ => "") s3_records 10 = [s3_row] := by
  norm_num [build_site_ensembles, group_days, sort_nats, insert_sorted, dedup_first, dedup_first_aux,
    process_day, make_row, mean_opt, sanitize, TEMP_LIMITS_high, TEMP_LIMITS_low, day_low,
    round1, round_half_even, Int.fract,
    max_list, dominant_precip, most_common1, join_sep, record_windy, has_wind_token, lower_str,
    str_contains_sub, list_has_sub, str_starts, classify_heat, HEAT_BANDS, classify_freeze,
    sort_strs, insert_sorted_str, str_le, chars_le, s3_records, s3_row,
    GUIDANCE_EXTREME_DANGER, GUIDANCE_DANGER, GUIDANCE_EXTREME_CAUTION, GUIDANCE_CAUTION,
    DEFAULT_HEAT_GUIDANCE, List.filter, List.find?, List.foldl, List.foldr, List.filterMap,
    List.sum, List.isEmpty, reduceCtorEq, String.reduceEq]
  simp

set_option maxHeartbeats 2000000 in
/-- Full evaluation of the reducer on the out-of-range PoP record. -/
lemma c4_eval : build_site_ensembles "Home" (fun _ => "") [c4_record] 10 = [c4_row] := by
  norm_num [build_site_ensembles, group_days, sort_nats, insert_sorted, dedup_first, dedup_first_aux,
    process_day, make_row, mean_opt, sanitize, TEMP_LIMITS_high, TEMP_LIMITS_low, day_low,
    round1, round_half_even, Int.fract,
    max_list, dominant_precip, most_common1, join_sep, record_windy, has_wind_token, lower_str,
    str_contains_sub, list_has_sub, str_starts, classify_heat, HEAT_BANDS, classify_freeze,
    sort_strs, insert_sorted_str, str_le, chars_le, c4_record,
    GUIDANCE_EXTREME_DANGER, GUIDANCE_DANGER, GUIDANCE_EXTREME_CAUTION, GUIDANCE_CAUTION,
    DEFAULT_HEAT_GUIDANCE, List.filter, List.find?, List.foldl, List.foldr, List.filterMap,
    List.sum, List.isEmpty, reduceCtorEq, String.reduceEq]
  simp [c4_row, DEFAULT_HEAT_GUIDANCE]

set_option maxHeartbeats 2000000 in
/-- Full evaluation of the reducer on the record with non-null amounts. -/
lemma c10_eval : build_site_ensembles "Home" (fun _ => "") [c10_record] 10 = [c10_row] := by
  norm_num [build_site_ensembles, group_days, sort_nats, insert_sorted, dedup_first, dedup_first_aux,
    process_day, make_row, mean_opt, sanitize, TEMP_LIMITS_high, TEMP_LIMITS_low, day_low,
    round1, round_half_even, Int.fract,
    max_list, dominant_precip, most_common1, join_sep, record_windy, has_wind_token, lower_str,
    str_contains_sub, list_has_sub, str_starts, classify_heat, HEAT_BANDS, classify_freeze,
    sort_strs, insert_sorted_str, str_le, chars_le, c10_record, c10_row,
    GUIDANCE_EXTREME_DANGER, GUIDANCE_DANGER, GUIDANCE_EXTREME_CAUTION, GUIDANCE_CAUTION,
    DEFAULT_HEAT_GUIDANCE, List.filter, List.find?, List.foldl, List.foldr, List.filterMap,
    List.sum, List.isEmpty, reduceCtorEq, String.reduceEq]
  simp

/-- C2 counterexample: with `PUBLIC_FILES` and `rss_fallback = false` the
dispatch list is GRIB, NDFD, gridpoint — not GRIB, gridpoint, NDFD as
claimed. -/
theorem ingestor_order_counterexample :
    ingestor_order PrimaryIngest.public_files false ≠
      [PyIngestor.nbm, PyIngestor.grid, PyIngestor.ndfd] ∧
    ingestor_order PrimaryIngest.public_files false =
      [PyIngestor.nbm, PyIngestor.ndfd, PyIngestor.grid] := by
  decide

/-- C2 (amended): under `PUBLIC_FILES` the dispatch list is the GRIB
ingestor, then the DWML/NDFD ingestor, then the gridpoint JSON ingestor,
with RSS appended iff `rss_fallback`; under `RSS` it is RSS first
followed by those three in that same order; first-occurrence
deduplication leaves the four distinct objects untouched. -/
theorem ingestor_order_spec (rss_fallback : Bool) :
    ingestor_order PrimaryIngest.public_files rss_fallback =
      [PyIngestor.nbm, PyIngestor.ndfd, PyIngestor.grid] ++
        (if rss_fallback then [PyIngestor.rss] else []) ∧
    ingestor_order PrimaryIngest.rss rss_fallback =
      [PyIngestor.rss, PyIngestor.nbm, PyIngestor.ndfd, PyIngestor.grid] := by
  cases rss_fallback <;> exact ⟨by decide, by decide⟩

/-- C3: every ingestor exposes a stable `source_name`, but the driver's
one-argument call `ingestor.fetch(site)` only binds the GRIB, gridpoint
and NDFD `fetch` signatures; `RSSIngestor.fetch(self, site, days, tzinfo)`
requires three arguments, so the driver's call fails on arity for the
RSS ingestor. -/
theorem rss_fetch_arity_mismatch :
    call_arity_ok PyIngestor.nbm driver_fetch_nargs = true ∧
    call_arity_ok PyIngestor.grid driver_fetch_nargs = true ∧
    call_arity_ok PyIngestor.ndfd driver_fetch_nargs = true ∧
    call_arity_ok PyIngestor.rss driver_fetch_nargs = false ∧
    source_name PyIngestor.nbm = "nbm_grib" ∧
    source_name PyIngestor.grid = "nws_gridpoint" ∧
    source_name PyIngestor.ndfd = "nws_ndfd" ∧
    source_name PyIngestor.rss = "nws_rss" := by
  decide

/-- C8 counterexample: on the phrase list `["Hail", "Graupel", "Graupel"]`
(no priority label present) the DWML parser derives the first phrase
`"Hail"`, while the §4.9 rule returns the most frequent phrase
`"Graupel"`. -/
theorem dwml_precip_counterexample :
    dwml_day_precip ["Hail", "Graupel", "Graupel"] = some "Hail" ∧
    dominant_precip_spec [some "Hail", some "Graupel", some "Graupel"] = some "Graupel" ∧
    dwml_day_precip ["Hail", "Graupel", "Graupel"] ≠
      dominant_precip_spec [some "Hail", some "Graupel", some "Graupel"] := by
  decide

/-- C9: on the entry text "High: 75°F Low: 50°F Chance of rain 20% then
60%" the code's extraction finds no temperature at all (its compiled
pattern demands a mojibake `Â` before the optional degree sign) and takes
only the first percentage, while the extraction the spec describes
yields high 75, low 50 and the maximal percentage 60; the code's pattern
only fires on double-encoded text such as "High 75Â°F". -/
theorem rss_regex_mojibake_divergence :
    rss_entry_extract "High: 75°F Low: 50°F Chance of rain 20% then 60%" =
      (none, none, some 20) ∧
    rss_entry_extract_spec "High: 75°F Low: 50°F Chance of rain 20% then 60%" =
      (some 75, some 50, some 60) ∧
    rss_entry_extract "High 75Â°F Low 50Â°F" = (some 75, some 50, none) := by
  decide

/-- Unfolding equation of `dedup_first_aux` on a cons cell. -/
lemma dedup_first_aux_cons {α : Type} [DecidableEq α] (seen : List α) (x : α) (xs : List α) :
    dedup_first_aux seen (x :: xs) =
      if x ∈ seen then dedup_first_aux seen xs else x :: dedup_first_aux (x :: seen) xs := rfl

/-- Membership in the deduplicated list, relative to the `seen` accumulator. -/
lemma mem_dedup_first_aux {α : Type} [DecidableEq α] (l : List α) :
    ∀ (seen : List α) (a : α), a ∈ dedup_first_aux seen l ↔ a ∈ l ∧ a ∉ seen := by
  induction l with
  | nil => intro seen a; simp [dedup_first_aux]
  | cons x xs ih =>
    intro seen a
    unfold dedup_first_aux
    by_cases hx : x ∈ seen
    · rw [if_pos hx, ih]
      constructor
      · rintro ⟨ha, hs⟩
        exact ⟨List.mem_cons_of_mem _ ha, hs⟩
      · rintro ⟨ha, hs⟩
        rcases List.mem_cons.mp ha with rfl | ha
        · exact absurd hx hs
        · exact ⟨ha, hs⟩
    · rw [if_neg hx]
      constructor
      · intro ha
        rcases List.mem_cons.mp ha with rfl | ha
        · exact ⟨List.mem_cons_self _ _, hx⟩
        · obtain ⟨h1, h2⟩ := (ih _ _).mp ha
          exact ⟨List.mem_cons_of_mem _ h1, fun hs => h2 (List.mem_cons_of_mem _ hs)⟩
      · rintro ⟨ha, hs⟩
        rcases List.mem_cons.mp ha with rfl | ha
        · exact List.mem_cons_self _ _
        · by_cases hax : a = x
          · subst hax; exact List.mem_cons_self _ _
          · refine List.mem_cons_of_mem _ ((ih _ _).mpr ⟨ha, fun hmem => ?_⟩)
            rcases List.mem_cons.mp hmem with h | h
            · exact hax h
            · exact hs h

/-- First-occurrence deduplication preserves membership. -/
lemma mem_dedup_first {α : Type} [DecidableEq α] (l : List α) (a : α) :
    a ∈ dedup_first l ↔ a ∈ l := by
  unfold dedup_first; rw [mem_dedup_first_aux]; simp

/-- `find?` only depends on the predicate's values on the list. -/
lemma find?_pred_congr {α : Type} (l : List α) (p q : α → Bool)
    (h : ∀ a ∈ l, p a = q a) : l.find? p = l.find? q := by
  induction l with
  | nil => rfl
  | cons x xs ih =>
    rw [List.find?_cons, List.find?_cons, h x (List.mem_cons_self x xs)]
    cases hqx : q x
    · simp only [hqx]
      exact ih fun a ha => h a (List.mem_cons_of_mem _ ha)
    · simp only [hqx]

/-- C6 — the heat classifier: `classify_heat` scans the bands in
descending threshold order and returns the first band met (≥125 Extreme
Danger, ≥100 Danger, ≥90 Extreme Caution, ≥80 Caution) with that band's
guidance row; a null or sub-80 value returns a null category with the
default guidance. -/
theorem classify_heat_bands (h : ℚ) :
    classify_heat (some h) =
      (if 125 ≤ h then (some "Extreme Danger", GUIDANCE_EXTREME_DANGER)
       else if 100 ≤ h then (some "Danger", GUIDANCE_DANGER)
       else if 90 ≤ h then (some "Extreme Caution", GUIDANCE_EXTREME_CAUTION)
       else if 80 ≤ h then (some "Caution", GUIDANCE_CAUTION)
       else (none, DEFAULT_HEAT_GUIDANCE)) ∧
    classify_heat none = (none, DEFAULT_HEAT_GUIDANCE) := by
  refine ⟨?_, rfl⟩
  unfold classify_heat HEAT_BANDS
  by_cases h1 : 125 ≤ h
  · simp [List.find?, ge_iff_le, h1]
  · by_cases h2 : 100 ≤ h
    · simp [List.find?, ge_iff_le, h1, h2]
    · by_cases h3 : 90 ≤ h
      · simp [List.find?, ge_iff_le, h1, h2, h3]
      · by_cases h4 : 80 ≤ h
        · simp [List.find?, ge_iff_le, h1, h2, h3, h4]
        · simp [List.find?, ge_iff_le, h1, h2, h3, h4]

/-- C6 witness: a high of 95 classifies as Extreme Caution, whose
work/rest guidance reads "30/40/10". -/
theorem classify_heat_bands_witness :
    classify_heat (some 95) = (some "Extreme Caution", GUIDANCE_EXTREME_CAUTION) ∧
    GUIDANCE_EXTREME_CAUTION.work_rest_min = "30/40/10" :=
  ⟨((classify_heat_bands 95).1).trans (by norm_num), rfl⟩

/-- C7 — the freeze classifier: badge Hard Freeze for `low_f ≤ 28`,
Freeze for `28 < low_f ≤ 32`, Frost for `32 < low_f ≤ 36`, null
otherwise; the wind-chill sentence is appended exactly when the wind
flag holds and `low_f ≤ 32`; a null low yields `(null, null)`. -/
theorem classify_freeze_bands (l : ℚ) (breezy : Bool) :
    classify_freeze (some l) breezy =
      (if l ≤ 28 then
        (some "Hard Freeze",
         some (if breezy then
                 FREEZE_GUIDANCE "Hard Freeze" ++ " Wind-chill risk: add face/hand protection."
               else FREEZE_GUIDANCE "Hard Freeze"))
       else if l ≤ 32 then
        (some "Freeze",
         some (if breezy then
                 FREEZE_GUIDANCE "Freeze" ++ " Wind-chill risk: add face/hand protection."
               else FREEZE_GUIDANCE "Freeze"))
       else if l ≤ 36 then (some "Frost", some (FREEZE_GUIDANCE "Frost"))
       else (none, none)) ∧
    classify_freeze none breezy = (none, none) := by
  refine ⟨?_, rfl⟩
  unfold classify_freeze
  by_cases h28 : l ≤ 28
  · have h32 : l ≤ 32 := le_trans h28 (by norm_num)
    simp only [h28, h32, if_pos, decide_true_eq_true, decide_eq_true_eq, if_true]
    cases breezy <;> simp [h32]
  · by_cases h32 : l ≤ 32
    · simp only [h28, h32, if_neg, if_pos, if_false, if_true]
      cases breezy <;> simp [h28, h32]
    · by_cases h36 : l ≤ 36
      · simp [h28, h32, h36]
      · simp [h28, h32, h36]

/-- C7 witness: a low of 27 with the wind flag set yields the Hard
Freeze badge and guidance carrying the wind-chill sentence. -/
theorem classify_freeze_bands_witness :
    classify_freeze (some 27) true =
      (some "Hard Freeze",
       some (FREEZE_GUIDANCE "Hard Freeze" ++ " Wind-chill risk: add face/hand protection.")) ∧
    str_contains_sub
      (FREEZE_GUIDANCE "Hard Freeze" ++ " Wind-chill risk: add face/hand protection.")
      "Wind-chill" = true :=
  ⟨((classify_freeze_bands 27 true).1).trans (by norm_num), by decide⟩

/-- C8 (amended): per day, the DWML parser's derived `precip_type` is the
highest-priority label of the fixed §4.9 list present among the day's
collected weather phrases; when none of those labels appears it is the
FIRST phrase in collection order (not the most frequent), and null when
there are no phrases. -/
theorem dwml_precip_first_distinct (phrases : List String)
    (hne : ∀ p ∈ phrases, p ≠ "") :
    dwml_day_precip phrases =
      match PRECIP_PRIORITY.find? (fun lab => phrases.contains lab) with
      | some lab => some lab
      | none => phrases.head? := by
  unfold dwml_day_precip summarize_precip
  have hfilter : phrases.filter (fun t => t != "") = phrases :=
    List.filter_eq_self.mpr fun a ha => by simpa using hne a ha
  rw [hfilter]
  cases phrases with
  | nil => decide
  | cons x xs =>
    have hfind :
        PRECIP_PRIORITY.find? (fun p => (dedup_first (x :: xs)).contains p) =
        PRECIP_PRIORITY.find? (fun p => (x :: xs).contains p) := by
      refine find?_pred_congr _ _ _ fun lab _ => ?_
      simp only [List.contains, List.elem_eq_mem]
      exact decide_eq_decide.mpr (mem_dedup_first _ _)
    have ht : dedup_first (x :: xs) = x :: dedup_first_aux [x] xs := by
      unfold dedup_first
      rw [dedup_first_aux_cons, if_neg (List.not_mem_nil x)]
    rw [ht] at hfind ⊢
    simp only []
    rw [hfind]
    cases PRECIP_PRIORITY.find? (fun p => (x :: xs).contains p) <;> simp

/-- C8 witness: on phrases Rain then Snow the priority list fires, so
the derived type is Snow. -/
theorem dwml_precip_first_distinct_witness :
    dwml_day_precip ["Rain", "Snow"] = some "Snow" :=
  (dwml_precip_first_distinct ["Rain", "Snow"] (by decide)).trans (by decide)

/-- Every emitted ensemble row arises from one grouped day: the day's
bucket is the nonempty filtered record list, at least one aggregate
survives, and the row is `make_row` on the sanitized aggregates with the
poisoned-low rule applied. -/
lemma build_mem_elim {site : String} {fmt : Nat → String}
    {records : List SourceDailyRecord} {days : Nat} {e : DailyEnsemble}
    (he : e ∈ build_site_ensembles site fmt records days) :
    ∃ day first rest,
      records.filter (fun r => r.date == day) = first :: rest ∧
      ¬(mean_opt ((first :: rest).map fun r => sanitize r.high_f "high") = none ∧
        day_low (mean_opt ((first :: rest).map fun r => sanitize r.high_f "high"))
          (mean_opt ((first :: rest).map fun r => sanitize r.low_f "low")) = none) ∧
      e = make_row site fmt day (first :: rest) first
            (mean_opt ((first :: rest).map fun r => sanitize r.high_f "high"))
            (day_low (mean_opt ((first :: rest).map fun r => sanitize r.high_f "high"))
              (mean_opt ((first :: rest).map fun r => sanitize r.low_f "low"))) := by
  unfold build_site_ensembles at he
  obtain ⟨day, -, hpd⟩ := List.mem_filterMap.mp (List.mem_of_mem_take he)
  refine ⟨day, ?_⟩
  unfold process_day at hpd
  split at hpd
  · exact absurd hpd (by simp)
  · next first rest heq =>
    dsimp only at hpd
    split at hpd
    · exact absurd hpd (by simp)
    · next hcond =>
      exact ⟨first, rest, heq, hcond, (Option.some.inj hpd).symm⟩

/-- The poisoned-low rule leaves no emitted pair with `low > high`. -/
lemma low_le_high_day_low (high m : Option ℚ) :
    low_le_high (day_low high m) high = true := by
  cases high with
  | none => cases m <;> rfl
  | some h =>
    cases m with
    | none => rfl
    | some l0 =>
      show low_le_high (if h < l0 then none else some l0) (some h) = true
      by_cases hlt : h < l0
      · rw [if_pos hlt]; rfl
      · rw [if_neg hlt]
        simp [low_le_high, le_of_not_lt hlt]

/-- C1 — temperature discipline of the ensemble reducer: every emitted
row keeps at least one of the aggregated temperatures (a day with both
null is skipped), and whenever both are present the low does not exceed
the high, a poisoned low having been dropped with the high kept. -/
theorem build_site_ensembles_temp_discipline (site : String) (fmt : Nat → String)
    (records : List SourceDailyRecord) (days : Nat) (e : DailyEnsemble)
    (he : e ∈ build_site_ensembles site fmt records days) :
    (e.high_f ≠ none ∨ e.low_f ≠ none) ∧ low_le_high e.low_f e.high_f = true := by
  obtain ⟨day, first, rest, heq, hcond, hrow⟩ := build_mem_elim he
  subst hrow
  constructor
  · have := not_and_or.mp hcond
    simpa [make_row] using this
  · simp only [make_row]
    exact low_le_high_day_low _ _

/-- C1 witness: scenario S5 — a single record with high 70 and low 80
emits a row with `high_f = 70` and a null `low_f`, and the discipline
holds on it. -/
theorem build_site_ensembles_temp_discipline_witness :
    s5_row ∈ build_site_ensembles "Home" (fun _ => "") [s5_record] 10 ∧
    s5_row.high_f = some 70 ∧ s5_row.low_f = none ∧
    ((s5_row.high_f ≠ none ∨ s5_row.low_f ≠ none) ∧
      low_le_high s5_row.low_f s5_row.high_f = true) :=
  ⟨by rw [s5_eval]; exact List.mem_singleton_self _, rfl, rfl,
    build_site_ensembles_temp_discipline "Home" (fun _ => "") [s5_record] 10 s5_row
      (by rw [s5_eval]; exact List.mem_singleton_self _)⟩

/-- C10 — the reducer never forwards precipitation amounts: every
emitted row has null `qpf_inches`, `snow_inches` and `ice_inches`. -/
theorem ensemble_amounts_null (site : String) (fmt : Nat → String)
    (records : List SourceDailyRecord) (days : Nat) (e : DailyEnsemble)
    (he : e ∈ build_site_ensembles site fmt records days) :
    e.qpf_inches = none ∧ e.snow_inches = none ∧ e.ice_inches = none := by
  obtain ⟨day, first, rest, heq, hcond, hrow⟩ := build_mem_elim he
  subst hrow
  simp [make_row]

/-- C10 witness: a record carrying qpf 1, snow 2 and ice 3 still emits a
row with all three amounts null. -/
theorem ensemble_amounts_null_witness :
    c10_row ∈ build_site_ensembles "Home" (fun _ => "") [c10_record] 10 ∧
    (c10_row.qpf_inches = none ∧ c10_row.snow_inches = none ∧ c10_row.ice_inches = none) :=
  ⟨by rw [c10_eval]; exact List.mem_singleton_self _,
    ensemble_amounts_null "Home" (fun _ => "") [c10_record] 10 c10_row
      (by rw [c10_eval]; exact List.mem_singleton_self _)⟩

/-- Folding `max` over rationals lands on one of the inputs. -/
lemma foldl_max_mem (xs : List ℚ) : ∀ x : ℚ, xs.foldl max x = x ∨ xs.foldl max x ∈ xs := by
  induction xs with
  | nil => intro x; left; rfl
  | cons y ys ih =>
    intro x
    rcases ih (max x y) with h | h
    · rcases max_choice x y with hm | hm
      · left; rw [List.foldl_cons, h, hm]
      · right; rw [List.foldl_cons, h, hm]; exact List.mem_cons_self _ _
    · right
      refine List.mem_cons_of_mem _ ?_
      rw [List.foldl_cons]
      exact h

/-- The maximum of a list is one of its elements. -/
lemma max_list_mem {l : List ℚ} {m : ℚ} (h : max_list l = some m) : m ∈ l := by
  cases l with
  | nil => simp [max_list] at h
  | cons x xs =>
    simp only [max_list, Option.some.injEq] at h
    subst h
    rcases foldl_max_mem xs x with h | h
    · rw [h]; exact List.mem_cons_self _ _
    · exact List.mem_cons_of_mem _ h

/-- Round-half-even returns the floor or the floor plus one. -/
lemma round_half_even_cases (q : ℚ) :
    round_half_even q = ⌊q⌋ ∨ round_half_even q = ⌊q⌋ + 1 := by
  simp only [round_half_even]
  split_ifs <;> simp

/-- Round-half-even of a nonnegative value is nonnegative. -/
lemma round_half_even_nonneg {q : ℚ} (h : 0 ≤ q) : 0 ≤ round_half_even q := by
  have hf : (0:ℤ) ≤ ⌊q⌋ := Int.floor_nonneg.mpr h
  rcases round_half_even_cases q with hc | hc <;> omega

/-- Round-half-even respects an integer upper bound. -/
lemma round_half_even_le {q : ℚ} {n : ℤ} (h : q ≤ (n : ℚ)) : round_half_even q ≤ n := by
  have hf : ⌊q⌋ ≤ n := by
    have := Int.floor_le_floor h
    simpa using this
  simp only [round_half_even]
  split_ifs with h1 h2 h3
  · exact hf
  · rcases eq_or_lt_of_le hf with heq | hlt
    · exfalso
      rw [heq] at h2
      linarith
    · omega
  · exact hf
  · rcases eq_or_lt_of_le hf with heq | hlt
    · exfalso
      have h12 : q - (⌊q⌋:ℚ) = 1/2 := le_antisymm (not_lt.mp h2) (not_lt.mp h1)
      rw [heq] at h12
      linarith
    · omega

/-- `round1` preserves nonnegativity. -/
lemma round1_nonneg {q : ℚ} (h : 0 ≤ q) : 0 ≤ round1 q := by
  unfold round1
  have h0 : (0:ℤ) ≤ round_half_even (10 * q) := round_half_even_nonneg (by linarith)
  have hc : (0:ℚ) ≤ (round_half_even (10 * q) : ℚ) := by exact_mod_cast h0
  linarith

/-- `round1` preserves the bound 100. -/
lemma round1_le_100 {q : ℚ} (h : q ≤ 100) : round1 q ≤ 100 := by
  unfold round1
  have hb : round_half_even (10 * q) ≤ (1000:ℤ) := round_half_even_le (by push_cast; linarith)
  have hc : (round_half_even (10 * q) : ℚ) ≤ 1000 := by exact_mod_cast hb
  linarith

/-- C4 counterexample: a source record with `pop_pct = 150` and a valid
high yields an emitted row with `pop_pct = 150`, outside [0, 100] — the
reducer does not clamp. -/
theorem pop_pct_out_of_range_counterexample :
    (build_site_ensembles "Home" (fun _ => "") [c4_record] 10).map (fun e => e.pop_pct) =
      [some 150] ∧ ¬((150 : ℚ) ≤ 100) := by
  constructor
  · rw [c4_eval]; rfl
  · norm_num

/-- C4 (amended): an emitted row's `pop_pct` is null or the 1-dp
rounding of the maximum of the non-null source values; it lies in
[0, 100] whenever every non-null source PoP does — out-of-range source
values pass through unclamped. -/
theorem pop_pct_in_range_of_sources (site : String) (fmt : Nat → String)
    (records : List SourceDailyRecord) (days : Nat) (e : DailyEnsemble)
    (he : e ∈ build_site_ensembles site fmt records days)
    (hsrc : ∀ r ∈ records, pop_in_range r.pop_pct = true) :
    pop_in_range e.pop_pct = true := by
  obtain ⟨day, first, rest, heq, hcond, hrow⟩ := build_mem_elim he
  subst hrow
  simp only [make_row]
  cases hml : max_list ((first :: rest).filterMap fun r => r.pop_pct) with
  | none => rfl
  | some m =>
    obtain ⟨r, hr, hrp⟩ := List.mem_filterMap.mp (max_list_mem hml)
    have hrrec : r ∈ records := by
      have hmem : r ∈ records.filter (fun r => r.date == day) := by rw [heq]; exact hr
      exact (List.mem_filter.mp hmem).1
    have hp := hsrc r hrrec
    rw [hrp] at hp
    simp only [pop_in_range, Bool.and_eq_true, decide_eq_true_eq] at hp
    simp only [Option.map_some', pop_in_range, Bool.and_eq_true, decide_eq_true_eq]
    exact ⟨round1_nonneg hp.1, round1_le_100 hp.2⟩

/-- C4 witness: with both of scenario S3's source PoPs inside [0, 100],
the emitted PoP 60 is inside the range. -/
theorem pop_pct_in_range_witness :
    s3_row.pop_pct = some 60 ∧ pop_in_range s3_row.pop_pct = true :=
  ⟨rfl, pop_pct_in_range_of_sources "Home" (fun _ => "") s3_records 10 s3_row
    (by rw [s3_eval]; exact List.mem_singleton_self _) (by decide)⟩

/-- C5 — dominant precipitation of an emitted row: null when no source
of the day carries a `precip_type`; the highest-priority label present
in the fixed order `Freezing Rain > Ice Pellets > Snow > Sleet > Rain >
Showers > Drizzle > Thunderstorms` when one is; and the most frequent
value with ties broken by first occurrence (`most_common1`) when no
listed label is present.  The hypothesis reflects the data model: a
present `precip_type` is a nonempty label. -/
theorem ensemble_precip_priority (site : String) (fmt : Nat → String)
    (records : List SourceDailyRecord) (days : Nat) (e : DailyEnsemble)
    (he : e ∈ build_site_ensembles site fmt records days)
    (hne : ∀ r ∈ records, r.precip_type ≠ some "") :
    (day_precip_values records e.date = [] → e.precip_type = none) ∧
    (∀ lab,
      PRECIP_PRIORITY.find? (fun p => (day_precip_values records e.date).contains p) = some lab →
      e.precip_type = some lab) ∧
    (PRECIP_PRIORITY.find? (fun p => (day_precip_values records e.date).contains p) = none →
      e.precip_type = most_common1 (day_precip_values records e.date)) := by
  obtain ⟨day, first, rest, heq, hcond, hrow⟩ := build_mem_elim he
  subst hrow
  simp only [make_row]
  have hvals : day_precip_values records day =
      ((first :: rest).map fun r => r.precip_type).filterMap id := by
    unfold day_precip_values
    rw [heq]
  rw [hvals]
  have hnev : ∀ v ∈ ((first :: rest).map fun r => r.precip_type).filterMap id, v ≠ "" := by
    intro v hv
    obtain ⟨t, ht, hid⟩ := List.mem_filterMap.mp hv
    obtain ⟨r, hr, hrt⟩ := List.mem_map.mp ht
    have hrrec : r ∈ records := by
      have hmem : r ∈ records.filter (fun r => r.date == day) := by rw [heq]; exact hr
      exact (List.mem_filter.mp hmem).1
    have hrv : r.precip_type = some v := by rw [hrt]; simpa using hid
    intro hveq
    exact hne r hrrec (by rw [hrv, hveq])
  have hfe : ((((first :: rest).map fun r => r.precip_type).filterMap id).filter
        (fun t => t != "")) =
      ((first :: rest).map fun r => r.precip_type).filterMap id :=
    List.filter_eq_self.mpr fun a ha => by simpa using hnev a ha
  simp only [dominant_precip]
  rw [hfe]
  refine ⟨?_, ?_, ?_⟩
  · intro hv
    rw [hv]
    simp
  · intro lab hfind
    have hlab : lab ∈ ((first :: rest).map fun r => r.precip_type).filterMap id := by
      have := List.find?_some hfind
      simpa [List.contains, List.elem_eq_mem] using this
    rw [if_neg (by simpa using List.ne_nil_of_mem hlab), hfind]
  · intro hfind
    by_cases hv : ((first :: rest).map fun r => r.precip_type).filterMap id = []
    · rw [if_pos (by simpa using hv), hv]
      rfl
    · rw [if_neg (by simpa using hv), hfind]

/-- C5 witness: scenario S3 — sources reporting Rain and Snow on the
same day yield the ensemble type Snow (priority beats Rain). -/
theorem ensemble_precip_priority_witness :
    s3_row.precip_type = some "Snow" := by
  have h := ensemble_precip_priority "Home" (fun _ => "") s3_records 10 s3_row
    (by rw [s3_eval]; exact List.mem_singleton_self _) (by decide)
  exact h.2.1 "Snow" (by decide)
